import Mathlib

/-!
Verification development for the Community-Bot-Manager moderation core.

Shallow embedding of:
- `src/moderation/spamDetector.js` (`checkForSpam`, `checkMessageFlood`,
  `checkRepeatedMessage`, `containsLink`, `isWhitelistedDomain`),
- the storage warning ledger (`getWarnings`, `addWarning`, `clearWarnings`),
- `src/moderation/warningSystem.js` (`addWarning` wrapper with threshold
  escalation and notification fan-out, `getGroupWarningStats`).

JavaScript specifics modelled explicitly:
- in-memory caches (NodeCache with `useClones` default) become association
  lists threaded through the functions;
- `x || d` on numeric config values becomes `jsOrNat : Option Nat → Nat → Nat`
  (both `undefined` and `0` fall back, mirroring JS falsiness);
- `Date.now()` becomes an explicit `now : Int` parameter;
- the md5 content fingerprint is a fixed deterministic digest assumed
  collision-free, so it is represented by the normalized input string itself
  (`fingerprint`), which preserves exactly the equality behaviour used by
  the code;
- `fs` write outcomes (`safeWriteJSON`) become an explicit `writeOk : Bool`
  parameter.
-/

namespace CommunityBot

/-- Association-list lookup, mirroring JS object property read (`obj[k]`),
returning `none` for an absent key. -/
def alGet? {α : Type} : List (String × α) → String → Option α
  | [], _ => none
  | (k', v) :: rest, k => if k' = k then some v else alGet? rest k

/-- Association-list lookup with a default, mirroring `cache.get(k) || d`. -/
def alGetD {α : Type} (m : List (String × α)) (k : String) (d : α) : α :=
  (alGet? m k).getD d

/-- Association-list update, mirroring JS object property write / `cache.set`:
replaces the (unique) existing binding or appends a new one. -/
def alSet {α : Type} : List (String × α) → String → α → List (String × α)
  | [], k, v => [(k, v)]
  | (k', v') :: rest, k, v =>
      if k' = k then (k, v) :: rest else (k', v') :: alSet rest k v

/-- Association-list key removal, mirroring JS `delete obj[k]`.
JS objects have unique keys, so removing every binding of `k` coincides with
deleting the single binding on every state the program can build. -/
def alRemove {α : Type} (m : List (String × α)) (k : String) : List (String × α) :=
  m.filter (fun p => p.1 ≠ k)

/-- JS `x || d` for an optional numeric config value: `undefined` and `0`
are falsy, so both fall back to the default. -/
def jsOrNat (x : Option Nat) (d : Nat) : Nat :=
  match x with
  | none => d
  | some 0 => d
  | some n => n

/-- JS `a || b` for an optional string (e.g. `message.author || message.from`):
`undefined` and the empty string are falsy. -/
def jsOrStr (x : Option String) (d : String) : String :=
  match x with
  | none => d
  | some "" => d
  | some s => s

/-! ## Group configuration (shape read by `spamDetector.js` / `warningSystem.js`) -/

structure SpamDetectionConfig where
  enabled : Bool
  linkBlockingEnabled : Bool
  allowedDomains : List String
  maxMessagesPerMinute : Option Nat
  maxRepeatedMessages : Option Nat
  deriving Repr, DecidableEq

structure ModerationConfig where
  spamDetection : SpamDetectionConfig
  maxWarningsBeforeAction : Option Nat
  groupNoticesEnabled : Bool
  deriving Repr, DecidableEq

structure GroupConfig where
  moderation : ModerationConfig
  deriving Repr, DecidableEq

structure Group where
  name : String
  admins : List String
  config : GroupConfig
  deriving Repr, DecidableEq

/-- The groups store (`groupsCache` in `storage.js`); `getGroup` is a plain
key lookup returning `null` (here `none`) for unknown groups. -/
abbrev Groups : Type := List (String × Group)

/-- `getGroup(groupId)` from `storage.js`. -/
def getGroup (groups : Groups) (groupId : String) : Option Group :=
  alGet? groups groupId

/-! ## Inbound message shape (fields read by `checkForSpam`) -/

structure Message where
  /-- `message.author` (set for group messages, may be absent). -/
  author : Option String
  /-- `message.from`. -/
  fromField : String
  /-- `message.body`. -/
  body : String
  /-- `message.hasMedia`. -/
  hasMedia : Bool
  /-- `message.type`. -/
  msgType : String
  /-- `message.isForwarded`. -/
  isForwarded : Bool
  /-- `message._data?.isForwarded` (truthiness of the optional chain). -/
  dataIsForwarded : Bool
  deriving Repr, DecidableEq

/-! ## spamDetector.js: flood tracking -/

/-- The `messageCache` (flood window) contents: per cache key, the stored
timestamp list. -/
abbrev FloodCache : Type := List (String × List Int)

/-- The `repeatedMessageCache` contents: per cache key, the stored
fingerprint list. -/
abbrev RepeatedCache : Type := List (String × List String)

/-- `checkMessageFlood(userId, maxMessages)` from `spamDetector.js`:
fetch the history at key `flood_<userId>`, push `now`, keep only entries
with `now - t < 60000`, store back, and flag iff the 60s window holds at
least `maxMessages || 20` entries AND the last 5 seconds hold at least 15. -/
def checkMessageFlood (cache : FloodCache) (userId : String)
    (maxMessages : Option Nat) (now : Int) : FloodCache × Bool :=
  let cacheKey := "flood_" ++ userId
  let messageHistory := alGetD cache cacheKey []
  let messageHistory := messageHistory ++ [now]
  let recentMessages := messageHistory.filter (fun t => now - t < 60000)
  let cache := alSet cache cacheKey recentMessages
  let burstThreshold := 15
  let extendedThreshold := jsOrNat maxMessages 20
  let last5Seconds := recentMessages.filter (fun t => now - t < 5000)
  (cache, decide (recentMessages.length ≥ extendedThreshold) &&
          decide (last5Seconds.length ≥ burstThreshold))

/-- JS `String.prototype.trim`: drop whitespace from both ends. -/
def jsTrim (cs : List Char) : List Char :=
  ((cs.dropWhile Char.isWhitespace).reverse.dropWhile Char.isWhitespace).reverse

/-- Content fingerprint: the code computes
`md5(messageBody.toLowerCase().trim())`. md5 is a fixed deterministic digest,
assumed collision-free, so the digest is represented by the normalized string
itself: two bodies get equal fingerprints exactly when their lowercased
trimmed forms coincide. -/
def fingerprint (messageBody : String) : String :=
  String.mk (jsTrim (messageBody.data.map Char.toLower))

/-- `checkRepeatedMessage(userId, messageBody, maxRepeated)` from
`spamDetector.js`: bodies shorter than 5 characters return `false` without
touching the cache; otherwise the fingerprint is appended, the history is
capped at 10 entries (oldest shifted off), stored back, and the call flags
iff the history holds at least `maxRepeated || 5` entries and the last that
many are all equal to the first of them. -/
def checkRepeatedMessage (cache : RepeatedCache) (userId : String)
    (messageBody : String) (maxRepeated : Option Nat) : RepeatedCache × Bool :=
  let cacheKey := "repeated_" ++ userId
  let messageHistory := alGetD cache cacheKey []
  if messageBody.length < 5 then
    (cache, false)
  else
    let messageHash := fingerprint messageBody
    let messageHistory := messageHistory ++ [messageHash]
    let messageHistory :=
      if messageHistory.length > 10 then messageHistory.tail else messageHistory
    let cache := alSet cache cacheKey messageHistory
    let checkCount := jsOrNat maxRepeated 5
    if messageHistory.length ≥ checkCount then
      let lastMessages := messageHistory.drop (messageHistory.length - checkCount)
      (cache, lastMessages.all (fun h => h = lastMessages.headD ""))
    else
      (cache, false)

/-! ## spamDetector.js: link detection -/

/-- Lowercase an entire string (JS `toLowerCase`), kept kernel-reducible. -/
def jsToLower (s : String) : String :=
  String.mk (s.data.map Char.toLower)

/-- `p` holds at some suffix of the list (used to model unanchored regex
matching and `String.prototype.includes`). -/
def anySuffix (p : List Char → Bool) : List Char → Bool
  | [] => p []
  | c :: rest => p (c :: rest) || anySuffix p rest

/-- JS `text.includes(sub)` (empty needle always matches). -/
def jsIncludes (s sub : String) : Bool :=
  anySuffix (fun cs => sub.data.isPrefixOf cs) s.data

/-- Character class `[a-zA-Z0-9-]` of the URL regex, on lowercased text. -/
def isDomainChar (c : Char) : Bool :=
  (('a' ≤ c) && (c ≤ 'z')) || (('0' ≤ c) && (c ≤ '9')) || c = '-'

/-- The fixed TLD alternation of the URL regex. -/
def knownTlds : List String :=
  ["com", "net", "org", "io", "co", "app", "dev", "xyz", "me", "info", "biz"]

/-- Nonempty tail starting with a non-whitespace character (regex `[^\s]+`). -/
def hasNonSpaceHead : List Char → Bool
  | [] => false
  | c :: _ => !c.isWhitespace

/-- One alternative of the URL regex matches at the head of the (lowercased)
character list:
`(https?:\/\/[^\s]+)|(www\.[^\s]+)|([a-zA-Z0-9-]+\.(tld)[^\s]*)`. -/
def linkMatchAt (cs : List Char) : Bool :=
  ("http://".data.isPrefixOf cs && hasNonSpaceHead (cs.drop 7)) ||
  ("https://".data.isPrefixOf cs && hasNonSpaceHead (cs.drop 8)) ||
  ("www.".data.isPrefixOf cs && hasNonSpaceHead (cs.drop 4)) ||
  (let run := cs.takeWhile isDomainChar
   decide (run ≠ []) &&
     (match cs.drop run.length with
      | '.' :: rest => knownTlds.any (fun t => t.data.isPrefixOf rest)
      | _ => false))

/-- `containsLink(text)` from `spamDetector.js`: the case-insensitive URL
regex matches somewhere in the text (the trailing `[^\s]*` of the bare-domain
alternative always matches the empty string, so only the prefix up to the TLD
is required). -/
def containsLink (text : String) : Bool :=
  anySuffix linkMatchAt (text.data.map Char.toLower)

/-- `isWhitelistedDomain(text, allowedDomains)` from `spamDetector.js`:
an empty allow-list whitelists nothing; otherwise some configured domain is a
case-insensitive substring of the text. -/
def isWhitelistedDomain (text : String) (allowedDomains : List String) : Bool :=
  if allowedDomains.length = 0 then
    false
  else
    allowedDomains.any (fun domain => jsIncludes (jsToLower text) (jsToLower domain))

/-! ## spamDetector.js: checkForSpam -/

/-- The pair of module-level NodeCache instances of `spamDetector.js`. -/
structure Caches where
  flood : FloodCache
  repeated : RepeatedCache
  deriving Repr, DecidableEq

/-- The value returned by `checkForSpam`: `{isSpam}` or `{isSpam, reason}`. -/
structure SpamCheckResult where
  isSpam : Bool
  reason : Option String := none
  deriving Repr, DecidableEq

/-- `isMedia` as computed inside `checkForSpam`. -/
def isMediaMsg (m : Message) : Bool :=
  m.hasMedia || m.msgType = "image" || m.msgType = "video" ||
  m.msgType = "document" || m.msgType = "audio" || m.msgType = "sticker"

/-- `isForwarded` as computed inside `checkForSpam`
(`message.isForwarded || message._data?.isForwarded`). -/
def isForwardedMsg (m : Message) : Bool :=
  m.isForwarded || m.dataIsForwarded

/-- `checkForSpam(message, chat, client)` from `spamDetector.js`, modelling
classification and tracker-cache mutation. Notification/deletion side effects
of `handleSpamDetection` are modelled separately by the warning-system
functions below; they never touch the two tracker caches. -/
def checkForSpam (groups : Groups) (caches : Caches) (message : Message)
    (chatGroupId : String) (now : Int) : Caches × SpamCheckResult :=
  match getGroup groups chatGroupId with
  | none => (caches, { isSpam := false })
  | some group =>
    if !group.config.moderation.spamDetection.enabled then
      (caches, { isSpam := false })
    else
      let userId := jsOrStr message.author message.fromField
      let messageBody := message.body
      let isMedia := isMediaMsg message
      let isForwarded := isForwardedMsg message
      if group.config.moderation.spamDetection.linkBlockingEnabled &&
         containsLink messageBody &&
         !isWhitelistedDomain messageBody
            group.config.moderation.spamDetection.allowedDomains then
        (caches, { isSpam := true, reason := some "link" })
      else
        let floodStep :=
          if !isMedia && !isForwarded then
            checkMessageFlood caches.flood userId
              group.config.moderation.spamDetection.maxMessagesPerMinute now
          else
            (caches.flood, false)
        let caches := { caches with flood := floodStep.1 }
        if floodStep.2 then
          (caches, { isSpam := true, reason := some "flood" })
        else
          let repStep :=
            if !isMedia && decide (messageBody ≠ "") &&
               decide ((jsTrim messageBody.data).length > 0) then
              checkRepeatedMessage caches.repeated userId messageBody
                group.config.moderation.spamDetection.maxRepeatedMessages
            else
              (caches.repeated, false)
          let caches := { caches with repeated := repStep.1 }
          if repStep.2 then
            (caches, { isSpam := true, reason := some "repeated" })
          else
            (caches, { isSpam := false })

/-- Sequential processing of `checkRepeatedMessage` calls, collecting each
call's flag (one inbound text message per event `(userId, body)`). -/
def runRepeatedFrom (cache : RepeatedCache) (mr : Option Nat) :
    List (String × String) → RepeatedCache × List Bool
  | [] => (cache, [])
  | (u, b) :: rest =>
    let step := checkRepeatedMessage cache u b mr
    let next := runRepeatedFrom step.1 mr rest
    (next.1, step.2 :: next.2)

/-- Sequential processing of `checkMessageFlood` calls for one user,
collecting each call's flag (one call per timestamp). -/
def runFloodFrom (cache : FloodCache) (u : String) (mm : Option Nat) :
    List Int → FloodCache × List Bool
  | [] => (cache, [])
  | t :: rest =>
    let step := checkMessageFlood cache u mm t
    let next := runFloodFrom step.1 u mm rest
    (next.1, step.2 :: next.2)

/-- Sequential processing of `checkForSpam` calls, collecting each call's
result (one event = message, chat group, timestamp). -/
def runSpamChecks (groups : Groups) (caches : Caches) :
    List (Message × String × Int) → Caches × List SpamCheckResult
  | [] => (caches, [])
  | (m, g, t) :: rest =>
    let step := checkForSpam groups caches m g t
    let next := runSpamChecks groups step.1 rest
    (next.1, step.2 :: next.2)

/-! ## storage.js: warning ledger -/

/-- One entry of a user's warning history (`{reason, timestamp}`); the ISO
timestamp string is represented by the instant it encodes. -/
structure WarningEntry where
  reason : String
  timestamp : Nat
  deriving Repr, DecidableEq

/-- `{count, history}` as stored in `warningsCache[groupId][userId]`. -/
structure WarningRecord where
  count : Nat
  history : List WarningEntry
  deriving Repr, DecidableEq

/-- `warningsCache`: groupId → userId → WarningRecord. -/
abbrev WarningsStore : Type := List (String × List (String × WarningRecord))

/-- `getWarnings(groupId, userId)` from `storage.js`: the zero record for
unknown keys. -/
def getWarnings (store : WarningsStore) (groupId userId : String) : WarningRecord :=
  match alGet? store groupId with
  | none => { count := 0, history := [] }
  | some users =>
    match alGet? users userId with
    | none => { count := 0, history := [] }
    | some record => record

/-- The value returned by the storage-level `addWarning`. -/
structure StorageAddResult where
  success : Bool
  count : Nat
  history : List WarningEntry
  deriving Repr, DecidableEq

/-- `addWarning(groupId, userId, reason)` from `storage.js` (imported as
`storageAddWarning` by the warning system): initialize missing group/user
records, increment `count`, append the history entry, then attempt the file
write. The in-memory mutation happens unconditionally; `success` only
reports the `safeWriteJSON` outcome (`writeOk`). -/
def storageAddWarning (store : WarningsStore) (groupId userId reason : String)
    (ts : Nat) (writeOk : Bool) : WarningsStore × StorageAddResult :=
  let users := (alGet? store groupId).getD []
  let record := (alGet? users userId).getD { count := 0, history := [] }
  let record := { count := record.count + 1,
                  history := record.history ++ [⟨reason, ts⟩] }
  let store := alSet store groupId (alSet users userId record)
  (store, { success := writeOk, count := record.count, history := record.history })

/-- `clearWarnings(groupId, userId)` from `storage.js` (imported as
`storageClearWarnings`): `false` for unknown keys; otherwise delete the user
record and return the file-write outcome. -/
def storageClearWarnings (store : WarningsStore) (groupId userId : String)
    (writeOk : Bool) : WarningsStore × Bool :=
  match alGet? store groupId with
  | none => (store, false)
  | some users =>
    match alGet? users userId with
    | none => (store, false)
    | some _ => (alSet store groupId (alRemove users userId), writeOk)

/-- One storage-level ledger operation, with the outcome of its file write. -/
inductive WarnOp where
  | add (groupId userId reason : String) (ts : Nat) (writeOk : Bool)
  | clear (groupId userId : String) (writeOk : Bool)
  deriving Repr, DecidableEq

/-- Apply one ledger operation to the store. -/
def applyWarnOp (store : WarningsStore) : WarnOp → WarningsStore
  | .add g u r ts ok => (storageAddWarning store g u r ts ok).1
  | .clear g u ok => (storageClearWarnings store g u ok).1

/-- Apply a sequence of ledger operations, left to right. -/
def applyWarnOps (store : WarningsStore) : List WarnOp → WarningsStore
  | [] => store
  | op :: rest => applyWarnOps (applyWarnOp store op) rest

/-! ## warningSystem.js: addWarning with escalation -/

/-- The outcome of the warning-system `addWarning`, together with which
notification side effects were attempted on that call path. -/
structure AddWarningOutcome where
  success : Bool
  count : Nat := 0
  threshold : Nat := 0
  thresholdReached : Bool := false
  history : List WarningEntry := []
  /-- `sendWarningDM` was invoked. -/
  dmAttempted : Bool := false
  /-- `notifyAdminsThresholdReached` was invoked. -/
  adminNotifyAttempted : Bool := false
  deriving Repr, DecidableEq

/-- `addWarning(groupId, userId, reason, client)` from `warningSystem.js`:
store the warning; on storage failure return `{success:false}` without any
notification; otherwise resolve the threshold
(`group?.config?.moderation?.maxWarningsBeforeAction || 3`), always send the
user DM, and notify admins exactly when `count >= threshold`. -/
def addWarning (groups : Groups) (store : WarningsStore)
    (groupId userId reason : String) (ts : Nat) (writeOk : Bool) :
    WarningsStore × AddWarningOutcome :=
  let step := storageAddWarning store groupId userId reason ts writeOk
  if !step.2.success then
    (step.1, { success := false })
  else
    let threshold :=
      jsOrNat ((getGroup groups groupId).bind
        (fun g => g.config.moderation.maxWarningsBeforeAction)) 3
    let thresholdReached := decide (step.2.count ≥ threshold)
    (step.1,
     { success := true, count := step.2.count, threshold := threshold,
       thresholdReached := thresholdReached, history := step.2.history,
       dmAttempted := true, adminNotifyAttempted := thresholdReached })

/-! ## warningSystem.js: getGroupWarningStats

The source reads `const warnings = getWarnings(groupId);` — a one-argument
call to the two-argument storage `getWarnings`, so `userId` is `undefined`
and the property lookup uses the coerced key `"undefined"`. The result is a
single `WarningRecord` (the zero record unless a user is literally keyed
`"undefined"`), and `Object.entries(warnings)` then yields its `count` and
`history` fields as though they were per-user entries. Modelling the loop
faithfully needs a sliver of dynamic JS semantics, provided by `JsVal`. -/

/-- Untyped JS values, as far as `getGroupWarningStats` can observe them. -/
inductive JsVal where
  | undefinedVal
  | nan
  | num (n : Int)
  | str (s : String)
  | arr (xs : List JsVal)
  | obj (fields : List (String × JsVal))

/-- JS property read `v[k]`: `undefined` off non-objects and missing keys. -/
def JsVal.getProp : JsVal → String → JsVal
  | .obj fields, k => (alGet? fields k).getD .undefinedVal
  | _, _ => .undefinedVal

/-- JS `+` restricted to the values this loop can produce: number addition,
anything involving `undefined`/`NaN` is `NaN`. -/
def jsAdd : JsVal → JsVal → JsVal
  | .num a, .num b => .num (a + b)
  | _, _ => .nan

/-- JS `v >= n`: numeric comparison; comparisons against `undefined`/`NaN`
are false. -/
def jsGeNum : JsVal → Int → Bool
  | .num a, b => a ≥ b
  | _, _ => false

/-- JS spread `{userId, ...h}` used when collecting recent warnings. -/
def spreadWithUser (userId : String) : JsVal → JsVal
  | .obj fields => .obj (("userId", .str userId) :: fields)
  | _ => .obj [("userId", .str userId)]

/-- Timestamp used by the `recentWarnings` descending sort
(`new Date(b.timestamp) - new Date(a.timestamp)`). -/
def jsValTimestamp (v : JsVal) : Int :=
  match v.getProp "timestamp" with
  | .num n => n
  | _ => 0

/-- Insert into a list kept sorted by descending timestamp. -/
def insertByTimestampDesc (v : JsVal) : List JsVal → List JsVal
  | [] => [v]
  | w :: rest =>
    if jsValTimestamp v ≥ jsValTimestamp w then v :: w :: rest
    else w :: insertByTimestampDesc v rest

/-- Sort by descending timestamp (the comparator of the source). -/
def sortByTimestampDesc : List JsVal → List JsVal
  | [] => []
  | v :: rest => insertByTimestampDesc v (sortByTimestampDesc rest)

/-- Accumulator of the `for ... of Object.entries(warnings)` loop. -/
structure GroupStatsAcc where
  totalUsers : Nat
  totalWarnings : JsVal
  usersAtThreshold : Nat
  recentWarnings : List JsVal

/-- The stats aggregate the source intends to return. -/
structure GroupWarningStats where
  totalUsers : Nat
  totalWarnings : JsVal
  usersAtThreshold : Nat
  recentWarnings : List JsVal

/-- The loop body of `getGroupWarningStats`, entry by entry: bump
`totalUsers`, add `userWarnings.count` into `totalWarnings`, compare against
the threshold, then spread `userWarnings.history` — a `TypeError` is thrown
when that property is not an array (`undefined.map`). -/
def statsLoop (threshold : Nat) :
    List (String × JsVal) → GroupStatsAcc → Except String GroupStatsAcc
  | [], acc => .ok acc
  | (userId, w) :: rest, acc =>
    let acc :=
      { acc with
        totalUsers := acc.totalUsers + 1,
        totalWarnings := jsAdd acc.totalWarnings (w.getProp "count"),
        usersAtThreshold :=
          if jsGeNum (w.getProp "count") threshold then acc.usersAtThreshold + 1
          else acc.usersAtThreshold }
    match w.getProp "history" with
    | .arr hs =>
      statsLoop threshold rest
        { acc with recentWarnings := acc.recentWarnings ++ hs.map (spreadWithUser userId) }
    | _ => .error "TypeError: cannot read map of undefined"

/-- `Object.entries` of a `WarningRecord` object (insertion order:
`count`, then `history`). -/
def entriesOfRecord (w : WarningRecord) : List (String × JsVal) :=
  [("count", .num w.count),
   ("history", .arr (w.history.map (fun h =>
      .obj [("reason", .str h.reason), ("timestamp", .num h.timestamp)])))]

/-- `getGroupWarningStats(groupId)` from `warningSystem.js`, including its
one-argument `getWarnings(groupId)` call (see the section comment). -/
def getGroupWarningStats (groups : Groups) (store : WarningsStore)
    (groupId : String) : Except String GroupWarningStats :=
  let warnings := getWarnings store groupId "undefined"
  let threshold :=
    jsOrNat ((getGroup groups groupId).bind
      (fun g => g.config.moderation.maxWarningsBeforeAction)) 3
  match statsLoop threshold (entriesOfRecord warnings)
      { totalUsers := 0, totalWarnings := .num 0,
        usersAtThreshold := 0, recentWarnings := [] } with
  | .error e => .error e
  | .ok acc =>
    .ok { totalUsers := acc.totalUsers, totalWarnings := acc.totalWarnings,
          usersAtThreshold := acc.usersAtThreshold,
          recentWarnings := (sortByTimestampDesc acc.recentWarnings).take 10 }

/-! ## Derived notions and concrete scenario data used by the theorems -/

/-- The 60-second window as recomputed by `checkMessageFlood`: the stored
history with the current timestamp appended, restricted to the last 60s. -/
def floodWindow (cache : FloodCache) (u : String) (now : Int) : List Int :=
  ((alGetD cache ("flood_" ++ u) []) ++ [now]).filter (fun t => now - t < 60000)

/-- The last-5-seconds portion of the 60-second window. -/
def floodBurst (cache : FloodCache) (u : String) (now : Int) : List Int :=
  (floodWindow cache u now).filter (fun t => now - t < 5000)

/-- The repetition history as recomputed by `checkRepeatedMessage` for a
body of length ≥ 5: fingerprint appended, then capped at 10 entries. -/
def repWindow (cache : RepeatedCache) (u : String) (body : String) : List String :=
  let h := alGetD cache ("repeated_" ++ u) [] ++ [fingerprint body]
  if h.length > 10 then h.tail else h

/-- The `count == history.length` invariant, as a predicate on stores. -/
def CountMatchesHistory (store : WarningsStore) : Prop :=
  ∀ g u, (getWarnings store g u).count = (getWarnings store g u).history.length

/-- A spam-enabled group with link blocking off and all thresholds at their
defaults, except a configurable warning threshold. -/
def demoGroup (maxWarnings : Option Nat) : Group :=
  { name := "Demo Group", admins := ["admin1"],
    config :=
      { moderation :=
        { spamDetection :=
          { enabled := true, linkBlockingEnabled := false, allowedDomains := [],
            maxMessagesPerMinute := none, maxRepeatedMessages := none },
          maxWarningsBeforeAction := maxWarnings,
          groupNoticesEnabled := false } } }

/-- Two spam-enabled groups used for the cross-group tracker scenarios. -/
def spamGroups : Groups := [("g1", demoGroup none), ("g2", demoGroup none)]

/-- A plain short text message (`"hey"` is below the 5-character repetition
minimum, so it never perturbs the repetition window). -/
def shortMsg (u : String) : Message :=
  { author := some u, fromField := u, body := "hey", hasMedia := false,
    msgType := "chat", isForwarded := false, dataIsForwarded := false }

/-- A forwarded plain-text message with a 10-character body. -/
def fwdMsg (u : String) : Message :=
  { author := some u, fromField := u, body := "aaaaaaaaaa", hasMedia := false,
    msgType := "chat", isForwarded := true, dataIsForwarded := false }

/-- A media message (an image) with a 10-character body. -/
def mediaMsg (u : String) : Message :=
  { author := some u, fromField := u, body := "aaaaaaaaaa", hasMedia := true,
    msgType := "image", isForwarded := false, dataIsForwarded := false }

/-- A group whose spam detection is disabled (link blocking nominally on,
which must not matter once the parent flag is off). -/
def demoGroupDisabled : Group :=
  { name := "Demo Disabled", admins := ["admin1"],
    config :=
      { moderation :=
        { spamDetection :=
          { enabled := false, linkBlockingEnabled := true,
            allowedDomains := [], maxMessagesPerMinute := none,
            maxRepeatedMessages := none },
          maxWarningsBeforeAction := none,
          groupNoticesEnabled := false } } }

/-- A one-group store whose group has spam detection disabled. -/
def disabledGroups : Groups := [("gd", demoGroupDisabled)]

/-- One group with warning threshold 3, for the escalation scenario. -/
def groups3 : Groups := [("g3", demoGroup (some 3))]

/-- Store after the first successful warning for `("g3","u")`. -/
def warnStore1 : WarningsStore := (addWarning groups3 [] "g3" "u" "spam" 0 true).1

/-- Store after the second successful warning for `("g3","u")`. -/
def warnStore2 : WarningsStore := (addWarning groups3 warnStore1 "g3" "u" "spam" 1 true).1

/-! ## Association-list lemmas -/

theorem alGet?_alSet {α : Type} (m : List (String × α)) (k : String) (v : α)
    (k' : String) :
    alGet? (alSet m k v) k' = if k = k' then some v else alGet? m k' := by
  induction m with
  | nil =>
    by_cases h : k = k' <;> simp [alSet, alGet?, h]
  | cons p rest ih =>
    obtain ⟨pk, pv⟩ := p
    by_cases hpk : pk = k
    · subst hpk
      by_cases h : pk = k' <;> simp [alSet, alGet?, h]
    · simp only [alSet, if_neg hpk]
      by_cases h1 : pk = k'
      · subst h1
        have h2 : ¬(k = pk) := fun hh => hpk hh.symm
        simp [alGet?, h2]
      · simp [alGet?, h1, ih]

theorem alGet?_alRemove {α : Type} (m : List (String × α)) (k : String)
    (k' : String) :
    alGet? (alRemove m k) k' = if k = k' then none else alGet? m k' := by
  induction m with
  | nil =>
    by_cases h : k = k' <;> simp [alRemove, alGet?, h]
  | cons p rest ih =>
    obtain ⟨pk, pv⟩ := p
    by_cases hpk : pk = k
    · subst hpk
      by_cases h : pk = k' <;>
        simp_all [alRemove, alGet?, List.filter]
    · by_cases hp' : pk = k'
      · subst hp'
        by_cases h : k = pk <;> simp_all [alRemove, alGet?, List.filter]
      · by_cases h : k = k' <;> simp_all [alRemove, alGet?, List.filter]

/-! ## Warning-ledger description lemmas -/

theorem getWarnings_eq (store : WarningsStore) (g u : String) :
    getWarnings store g u
      = (alGet? ((alGet? store g).getD []) u).getD { count := 0, history := [] } := by
  cases hgs : alGet? store g with
  | none => simp [getWarnings, hgs, alGet?]
  | some users => cases huv : alGet? users u <;> simp [getWarnings, hgs, huv]

theorem getWarnings_storageAddWarning (store : WarningsStore)
    (g u r : String) (ts : Nat) (ok : Bool) (g' u' : String) :
    getWarnings (storageAddWarning store g u r ts ok).1 g' u' =
      if g = g' ∧ u = u' then
        { count := (getWarnings store g u).count + 1,
          history := (getWarnings store g u).history ++ [⟨r, ts⟩] }
      else getWarnings store g' u' := by
  by_cases hg : g = g'
  · subst hg
    by_cases hu : u = u'
    · subst hu
      simp [getWarnings_eq, storageAddWarning, alGet?_alSet]
    · simp [getWarnings_eq, storageAddWarning, alGet?_alSet, hu]
  · have hne : ¬(g = g' ∧ u = u') := fun h => hg h.1
    simp [getWarnings_eq, storageAddWarning, alGet?_alSet, hg, hne]

theorem getWarnings_storageClearWarnings (store : WarningsStore)
    (g u : String) (ok : Bool) (g' u' : String) :
    getWarnings (storageClearWarnings store g u ok).1 g' u' =
      if g = g' ∧ u = u' then { count := 0, history := [] }
      else getWarnings store g' u' := by
  simp only [storageClearWarnings]
  cases hgs : alGet? store g with
  | none =>
    by_cases h : g = g' ∧ u = u'
    · obtain ⟨hg, hu⟩ := h
      subst hg; subst hu
      simp [getWarnings_eq, hgs, alGet?]
    · simp [h]
  | some users =>
    cases huv : alGet? users u with
    | none =>
      by_cases h : g = g' ∧ u = u'
      · obtain ⟨hg, hu⟩ := h
        subst hg; subst hu
        simp [getWarnings_eq, hgs, huv]
      · simp [h, huv]
    | some record =>
      by_cases hg : g = g'
      · subst hg
        by_cases hu : u = u'
        · subst hu
          simp [getWarnings_eq, alGet?_alSet, alGet?_alRemove, hgs, huv]
        · simp [getWarnings_eq, alGet?_alSet, alGet?_alRemove, hu, hgs, huv]
      · have hne : ¬(g = g' ∧ u = u') := fun h => hg h.1
        simp [getWarnings_eq, alGet?_alSet, hg, hne, huv]

theorem countMatchesHistory_applyWarnOp (store : WarningsStore)
    (hs : CountMatchesHistory store) (op : WarnOp) :
    CountMatchesHistory (applyWarnOp store op) := by
  cases op with
  | add g u r ts ok =>
    intro g' u'
    simp only [applyWarnOp, getWarnings_storageAddWarning]
    by_cases h : g = g' ∧ u = u'
    · simp [if_pos h, hs g u]
    · simp [if_neg h, hs g' u']
  | clear g u ok =>
    intro g' u'
    simp only [applyWarnOp, getWarnings_storageClearWarnings]
    by_cases h : g = g' ∧ u = u'
    · simp [if_pos h]
    · simp [if_neg h, hs g' u']

theorem countMatchesHistory_applyWarnOps (ops : List WarnOp) :
    ∀ store : WarningsStore, CountMatchesHistory store →
      CountMatchesHistory (applyWarnOps store ops) := by
  induction ops with
  | nil => intro store hs; exact hs
  | cons op rest ih =>
    intro store hs
    exact ih _ (countMatchesHistory_applyWarnOp store hs op)

/-- **C1.** For every (groupId,userId), after any sequence of `addWarning` and
`clearWarnings` calls starting from an empty warning store, the stored warning
record satisfies `count == history.length`; and `getWarnings` returns
`{count: 0, history: []}` for keys with no record. -/
theorem warnLedger_invariant :
    (∀ (ops : List WarnOp) (g u : String),
      (getWarnings (applyWarnOps [] ops) g u).count
        = (getWarnings (applyWarnOps [] ops) g u).history.length) ∧
    (∀ (store : WarningsStore) (g u : String),
      (alGet? store g).bind (fun users => alGet? users u) = none →
      getWarnings store g u = { count := 0, history := [] }) := by
  constructor
  · intro ops g u
    exact countMatchesHistory_applyWarnOps ops []
      (fun g u => by simp [getWarnings, alGet?]) g u
  · intro store g u h
    cases hgs : alGet? store g with
    | none => simp [getWarnings, hgs]
    | some users =>
      rw [hgs] at h
      simp only [Option.some_bind] at h
      simp [getWarnings, hgs, h]

/-- Closed witness for `warnLedger_invariant` at a concrete operation
sequence and at a concrete no-record key. -/
theorem warnLedger_invariant_witness :
    ((getWarnings (applyWarnOps []
        [WarnOp.add "g" "u" "spam" 0 true, WarnOp.add "g" "u" "flood" 1 false,
         WarnOp.clear "g" "u" true, WarnOp.add "g" "u" "link" 2 true]) "g" "u").count
      = (getWarnings (applyWarnOps []
        [WarnOp.add "g" "u" "spam" 0 true, WarnOp.add "g" "u" "flood" 1 false,
         WarnOp.clear "g" "u" true, WarnOp.add "g" "u" "link" 2 true]) "g" "u").history.length) ∧
    getWarnings [("h", [("v", { count := 1, history := [⟨"spam", 0⟩] })])] "g" "u"
      = { count := 0, history := [] } :=
  ⟨warnLedger_invariant.1 _ "g" "u",
   warnLedger_invariant.2 _ "g" "u" (by decide)⟩

/-! ## Warning escalation (warningSystem.js) -/

theorem storageAddWarning_result (store : WarningsStore) (g u r : String)
    (ts : Nat) (ok : Bool) :
    (storageAddWarning store g u r ts ok).2 =
      { success := ok,
        count := (getWarnings store g u).count + 1,
        history := (getWarnings store g u).history ++ [⟨r, ts⟩] } := by
  simp [storageAddWarning, getWarnings_eq]

/-- **C4 counterexample.** When the store write fails during `addWarning`,
failure is signalled and neither the user DM nor the admin notification is
attempted — but the in-memory increment survives: `getWarnings` goes from
count 0 before the failed call to count 1 after it, refuting the claimed
"the increment is not committed". -/
theorem addWarning_failure_counterexample :
    (addWarning [] [] "g1" "u1" "spam" 0 false).2.success = false ∧
    (addWarning [] [] "g1" "u1" "spam" 0 false).2.dmAttempted = false ∧
    (addWarning [] [] "g1" "u1" "spam" 0 false).2.adminNotifyAttempted = false ∧
    (getWarnings [] "g1" "u1").count = 0 ∧
    (getWarnings (addWarning [] [] "g1" "u1" "spam" 0 false).1 "g1" "u1").count = 1 := by
  decide

/-- **C4 (amended).** If the underlying store write fails during
`addWarning`, the operation signals failure to the caller and neither the
user DM nor any admin notification is attempted, but the in-memory increment
IS committed: a subsequent `getWarnings` for that (groupId,userId) returns
the previous count plus one. -/
theorem addWarning_failure_amended :
    ∀ (groups : Groups) (store : WarningsStore) (g u r : String) (ts : Nat),
      (addWarning groups store g u r ts false).2 = { success := false } ∧
      (getWarnings (addWarning groups store g u r ts false).1 g u).count
        = (getWarnings store g u).count + 1 := by
  intro groups store g u r ts
  refine ⟨rfl, ?_⟩
  have h1 : (addWarning groups store g u r ts false).1
      = (storageAddWarning store g u r ts false).1 := rfl
  rw [h1, getWarnings_storageAddWarning]
  simp

/-- **C8.** After a successful warning append, `addWarning` computes
`thresholdReached = (count >= threshold)` with the threshold taken from the
group's `maxWarningsBeforeAction` (default 3 when absent), and admin
notification is attempted exactly when `thresholdReached` holds; with
threshold 3, the 3rd warning notifies the admins while the 2nd does not. -/
theorem addWarning_threshold_spec :
    ∀ (groups : Groups) (store : WarningsStore) (g u r : String) (ts : Nat),
      ((addWarning groups store g u r ts true).2.success = true) ∧
      ((addWarning groups store g u r ts true).2.count
        = (getWarnings store g u).count + 1) ∧
      ((addWarning groups store g u r ts true).2.threshold
        = jsOrNat ((getGroup groups g).bind
            (fun gr => gr.config.moderation.maxWarningsBeforeAction)) 3) ∧
      ((addWarning groups store g u r ts true).2.thresholdReached
        = decide ((addWarning groups store g u r ts true).2.count
            ≥ (addWarning groups store g u r ts true).2.threshold)) ∧
      ((addWarning groups store g u r ts true).2.adminNotifyAttempted
        = (addWarning groups store g u r ts true).2.thresholdReached) ∧
      (addWarning groups3 warnStore1 "g3" "u" "spam" 1 true).2.count = 2 ∧
      (addWarning groups3 warnStore1 "g3" "u" "spam" 1 true).2.thresholdReached = false ∧
      (addWarning groups3 warnStore1 "g3" "u" "spam" 1 true).2.adminNotifyAttempted = false ∧
      (addWarning groups3 warnStore2 "g3" "u" "spam" 2 true).2.count = 3 ∧
      (addWarning groups3 warnStore2 "g3" "u" "spam" 2 true).2.thresholdReached = true ∧
      (addWarning groups3 warnStore2 "g3" "u" "spam" 2 true).2.adminNotifyAttempted = true := by
  intro groups store g u r ts
  refine ⟨rfl, ?_, rfl, rfl, rfl,
    by decide, by decide, by decide, by decide, by decide, by decide⟩
  have h2 : (addWarning groups store g u r ts true).2.count
      = (storageAddWarning store g u r ts true).2.count := rfl
  rw [h2, storageAddWarning_result]

/-! ## Flood detection (C2) -/

/-- **C2.** `checkMessageFlood` appends the current timestamp, keeps only
entries from the last 60,000 ms, and returns true iff the 60-second window
holds at least `maxPerWindow` (fallback 20) entries AND the last 5 seconds
hold at least 15 entries; at most 12 entries in the last 5 seconds never
flag flood regardless of the 60-second total, while 16 entries within 5
seconds together with at least 20 within 60 seconds (default threshold) do;
concretely, 4 messages followed by 16 messages in one burst flag flood
exactly on the 20th message, the one crossing both thresholds. -/
theorem checkMessageFlood_spec :
    ∀ (cache : FloodCache) (u : String) (mm : Option Nat) (now : Int),
      ((checkMessageFlood cache u mm now).1
        = alSet cache ("flood_" ++ u) (floodWindow cache u now)) ∧
      ((checkMessageFlood cache u mm now).2 = true ↔
        jsOrNat mm 20 ≤ (floodWindow cache u now).length ∧
        15 ≤ (floodBurst cache u now).length) ∧
      ((floodBurst cache u now).length ≤ 12 →
        (checkMessageFlood cache u mm now).2 = false) ∧
      (mm = none → 16 ≤ (floodBurst cache u now).length →
        20 ≤ (floodWindow cache u now).length →
        (checkMessageFlood cache u mm now).2 = true) ∧
      ((runFloodFrom [] "uu" none
          (List.replicate 4 0 ++ List.replicate 16 30000)).2
        = List.replicate 19 false ++ [true]) := by
  intro cache u mm now
  have hiff : (checkMessageFlood cache u mm now).2 = true ↔
      jsOrNat mm 20 ≤ (floodWindow cache u now).length ∧
      15 ≤ (floodBurst cache u now).length := by
    simp [checkMessageFlood, floodWindow, floodBurst, ge_iff_le]
  refine ⟨rfl, hiff, ?_, ?_, by decide⟩
  · intro h
    cases hval : (checkMessageFlood cache u mm now).2
    · rfl
    · have h15 := (hiff.mp hval).2
      omega
  · intro hmm h16 h20
    subst hmm
    exact hiff.mpr ⟨h20, by omega⟩

/-- Closed witness for `checkMessageFlood_spec`: a first message never flags,
and a 20th same-instant message on top of 19 recent ones flags. -/
theorem checkMessageFlood_spec_witness :
    (checkMessageFlood [] "wf" none 0).2 = false ∧
    (checkMessageFlood [("flood_wf", List.replicate 19 (0 : Int))] "wf" none 0).2 = true :=
  ⟨(checkMessageFlood_spec [] "wf" none 0).2.2.1 (by decide),
   (checkMessageFlood_spec [("flood_wf", List.replicate 19 (0 : Int))] "wf" none 0).2.2.2.1
      rfl (by decide) (by decide)⟩

/-! ## Repetition detection (C3) -/

theorem one_le_jsOrNat (mr : Option Nat) (d : Nat) (hd : 1 ≤ d) :
    1 ≤ jsOrNat mr d := by
  cases mr with
  | none => exact hd
  | some n =>
    cases n with
    | zero => exact hd
    | succ k => simp [jsOrNat]

theorem all_eq_headD_iff (l : List String) (hne : l ≠ []) :
    (l.all (fun h => h = l.headD "")) = true ↔ ∀ x ∈ l, ∀ y ∈ l, x = y := by
  cases l with
  | nil => exact absurd rfl hne
  | cons a t =>
    simp only [List.all_eq_true, List.headD, decide_eq_true_eq]
    constructor
    · intro hall x hx y hy
      rw [hall x hx, hall y hy]
    · intro hp x hx
      exact hp x hx a (List.mem_cons_self a t)

theorem checkRepeatedMessage_short (cache : RepeatedCache) (u body : String)
    (mr : Option Nat) (h : body.length < 5) :
    checkRepeatedMessage cache u body mr = (cache, false) := by
  simp [checkRepeatedMessage, h]

theorem checkRepeatedMessage_fst (cache : RepeatedCache) (u body : String)
    (mr : Option Nat) (h : ¬ body.length < 5) :
    (checkRepeatedMessage cache u body mr).1
      = alSet cache ("repeated_" ++ u) (repWindow cache u body) := by
  simp only [checkRepeatedMessage, if_neg h, repWindow]
  split <;> split <;> rfl

theorem checkRepeatedMessage_snd (cache : RepeatedCache) (u body : String)
    (mr : Option Nat) (h : ¬ body.length < 5) :
    (checkRepeatedMessage cache u body mr).2 =
      (if (repWindow cache u body).length ≥ jsOrNat mr 5 then
        ((repWindow cache u body).drop
            ((repWindow cache u body).length - jsOrNat mr 5)).all
          (fun x => x = ((repWindow cache u body).drop
            ((repWindow cache u body).length - jsOrNat mr 5)).headD "")
      else false) := by
  simp only [checkRepeatedMessage, if_neg h, repWindow]
  split <;> split <;> rfl

theorem repWindow_length_le (cache : RepeatedCache) (u body : String)
    (hc : (alGetD cache ("repeated_" ++ u) []).length ≤ 10) :
    (repWindow cache u body).length ≤ 10 := by
  simp only [repWindow]
  split
  · simp only [List.length_tail, List.length_append, List.length_singleton]
    omega
  · rename_i hcap
    simp only [List.length_append, List.length_singleton] at hcap ⊢
    omega

theorem checkRepeatedMessage_cap (cache : RepeatedCache)
    (hc : ∀ k, (alGetD cache k []).length ≤ 10) (u body : String)
    (mr : Option Nat) :
    ∀ k, (alGetD (checkRepeatedMessage cache u body mr).1 k []).length ≤ 10 := by
  intro k
  by_cases h : body.length < 5
  · rw [checkRepeatedMessage_short cache u body mr h]
    exact hc k
  · rw [checkRepeatedMessage_fst cache u body mr h]
    simp only [alGetD, alGet?_alSet]
    by_cases hk : ("repeated_" ++ u) = k
    · rw [if_pos hk]
      simpa using repWindow_length_le cache u body (hc _)
    · rw [if_neg hk]
      exact hc k

theorem runRepeatedFrom_cap :
    ∀ (events : List (String × String)) (cache : RepeatedCache) (mr : Option Nat),
      (∀ k, (alGetD cache k []).length ≤ 10) →
      ∀ k, (alGetD (runRepeatedFrom cache mr events).1 k []).length ≤ 10 := by
  intro events
  induction events with
  | nil => intro cache mr hc; exact hc
  | cons ev rest ih =>
    intro cache mr hc
    obtain ⟨u, b⟩ := ev
    exact ih _ mr (checkRepeatedMessage_cap cache hc u b mr)

theorem runRepeatedFrom_gt_ten (n : Nat) (hn : 10 < n) :
    ∀ (events : List (String × String)) (cache : RepeatedCache),
      (∀ k, (alGetD cache k []).length ≤ 10) →
      (runRepeatedFrom cache (some n) events).2
        = List.replicate events.length false := by
  intro events
  induction events with
  | nil => intro cache hc; rfl
  | cons ev rest ih =>
    intro cache hc
    obtain ⟨u, b⟩ := ev
    have hflag : (checkRepeatedMessage cache u b (some n)).2 = false := by
      by_cases h : b.length < 5
      · rw [checkRepeatedMessage_short cache u b (some n) h]
      · rw [checkRepeatedMessage_snd cache u b (some n) h]
        have hW := repWindow_length_le cache u b (hc _)
        have hcc : jsOrNat (some n) 5 = n := by
          cases n with
          | zero => exact absurd hn (by omega)
          | succ k => rfl
        rw [hcc]
        exact if_neg (by omega)
    simp only [runRepeatedFrom]
    rw [hflag, ih _ (checkRepeatedMessage_cap cache hc u b (some n))]
    simp [List.replicate_succ]

/-- **C3.** `checkRepeatedMessage` returns false without mutating state for
every body shorter than 5 characters; for a body of length ≥ 5 it appends
the case-insensitive trimmed fingerprint (capping the history at 10) and
returns true exactly when the stored history holds at least
`maxRepeated || 5` entries and its last that-many fingerprints are all
identical; sending one identical 10-character message 5 times triggers on
the 5th occurrence, and changing the 5th message does not trigger. -/
theorem checkRepeatedMessage_spec :
    ∀ (cache : RepeatedCache) (u body : String) (mr : Option Nat),
      (body.length < 5 → checkRepeatedMessage cache u body mr = (cache, false)) ∧
      (5 ≤ body.length →
        ((checkRepeatedMessage cache u body mr).1
          = alSet cache ("repeated_" ++ u) (repWindow cache u body)) ∧
        ((checkRepeatedMessage cache u body mr).2 = true ↔
          jsOrNat mr 5 ≤ (repWindow cache u body).length ∧
          ∀ x ∈ (repWindow cache u body).drop
              ((repWindow cache u body).length - jsOrNat mr 5),
            ∀ y ∈ (repWindow cache u body).drop
              ((repWindow cache u body).length - jsOrNat mr 5), x = y)) ∧
      ((runRepeatedFrom [] (some 5) (List.replicate 5 ("ru", "zzzzzzzzzz"))).2
        = [false, false, false, false, true]) ∧
      ((runRepeatedFrom [] (some 5)
          (List.replicate 4 ("ru", "zzzzzzzzzz") ++ [("ru", "yyyyyyyyyy")])).2
        = [false, false, false, false, false]) := by
  intro cache u body mr
  refine ⟨?_, ?_, by decide, by decide⟩
  · exact checkRepeatedMessage_short cache u body mr
  · intro h
    have hlt : ¬ body.length < 5 := by omega
    constructor
    · exact checkRepeatedMessage_fst cache u body mr hlt
    · rw [checkRepeatedMessage_snd cache u body mr hlt]
      generalize repWindow cache u body = L
      by_cases h2 : L.length ≥ jsOrNat mr 5
      · rw [if_pos h2, all_eq_headD_iff]
        · exact ⟨fun hp => ⟨h2, hp⟩, fun hcp => hcp.2⟩
        · intro hnil
          have h0 : (L.drop (L.length - jsOrNat mr 5)).length = 0 := by
            rw [hnil]; rfl
          rw [List.length_drop] at h0
          have hcc : 1 ≤ jsOrNat mr 5 := one_le_jsOrNat mr 5 (by omega)
          omega
      · rw [if_neg h2]
        constructor
        · intro hf
          simp at hf
        · rintro ⟨hc, -⟩
          exact absurd hc h2

/-- Closed witness for `checkRepeatedMessage_spec`: a 2-character body leaves
the cache untouched, and a 5-character body stores its fingerprint. -/
theorem checkRepeatedMessage_spec_witness :
    checkRepeatedMessage [] "wu" "hi" none = ([], false) ∧
    (checkRepeatedMessage [] "wu" "hello" none).1
      = alSet [] ("repeated_" ++ "wu") (repWindow [] "wu" "hello") :=
  ⟨(checkRepeatedMessage_spec [] "wu" "hi" none).1 (by decide),
   ((checkRepeatedMessage_spec [] "wu" "hello" none).2.1 (by decide)).1⟩

/-! ## Repetition history cap (C10) -/

/-- **C10.** The per-user repetition fingerprint history never exceeds 10
entries after any sequence of messages from the empty cache, and for every
configured `maxRepeatedMessages` strictly greater than 10,
`checkRepeatedMessage` returns false on every call of every sequence. -/
theorem repetition_cap_spec :
    ∀ (events : List (String × String)) (mr : Option Nat) (n : Nat),
      (∀ k, (alGetD (runRepeatedFrom [] mr events).1 k []).length ≤ 10) ∧
      (10 < n →
        (runRepeatedFrom [] (some n) events).2
          = List.replicate events.length false) := by
  intro events mr n
  constructor
  · exact runRepeatedFrom_cap events [] mr (fun k => by simp [alGetD, alGet?])
  · intro hn
    exact runRepeatedFrom_gt_ten n hn events [] (fun k => by simp [alGetD, alGet?])

/-- Closed witness for `repetition_cap_spec`: 12 identical long messages
with `maxRepeatedMessages = 11` leave a 10-entry history and never flag. -/
theorem repetition_cap_spec_witness :
    (alGetD (runRepeatedFrom [] (some 11)
        (List.replicate 12 ("u10", "aaaaaaaaaa"))).1 "repeated_u10" []).length ≤ 10 ∧
    (runRepeatedFrom [] (some 11) (List.replicate 12 ("u10", "aaaaaaaaaa"))).2
      = List.replicate 12 false :=
  ⟨(repetition_cap_spec (List.replicate 12 ("u10", "aaaaaaaaaa")) (some 11) 11).1
      "repeated_u10",
   (repetition_cap_spec (List.replicate 12 ("u10", "aaaaaaaaaa")) (some 11) 11).2
      (by decide)⟩

/-! ## Classifier gating and tracker keying (C5, C6, C7) -/

/-- **C7.** If spam detection is disabled for the group, or no group config
exists, `checkForSpam` returns not-spam immediately for every message: no
link classification happens and neither tracker cache is mutated. -/
theorem spam_disabled_noop :
    ∀ (groups : Groups) (caches : Caches) (message : Message) (g : String)
      (now : Int),
      (getGroup groups g = none ∨
        ∃ gr, getGroup groups g = some gr ∧
          gr.config.moderation.spamDetection.enabled = false) →
      checkForSpam groups caches message g now = (caches, { isSpam := false }) := by
  intro groups caches message g now h
  rcases h with h | ⟨gr, hg, he⟩
  · simp [checkForSpam, h]
  · simp [checkForSpam, hg, he]

/-- Closed witness for `spam_disabled_noop`: a missing group and a disabled
group, each with a link-bearing message body. -/
theorem spam_disabled_noop_witness :
    checkForSpam [] ⟨[], []⟩ (shortMsg "u") "nogroup" 0
      = (⟨[], []⟩, { isSpam := false }) ∧
    checkForSpam disabledGroups ⟨[], []⟩ (fwdMsg "u") "gd" 0
      = (⟨[], []⟩, { isSpam := false }) :=
  ⟨spam_disabled_noop [] ⟨[], []⟩ (shortMsg "u") "nogroup" 0 (Or.inl (by decide)),
   spam_disabled_noop disabledGroups ⟨[], []⟩ (fwdMsg "u") "gd" 0
     (Or.inr ⟨demoGroupDisabled, by decide, by decide⟩)⟩

set_option maxRecDepth 4000 in
/-- **C5 counterexample.** Tracker state is NOT keyed per (groupId,userId):
19 messages handled for group `g1` leave the single per-user flood window
non-empty, and the user's very first message in group `g2` is then classified
as flood, although the same message from a fresh state is not spam. -/
theorem tracker_key_counterexample :
    alGetD (runSpamChecks spamGroups ⟨[], []⟩
        (List.replicate 19 (shortMsg "u", "g1", 0))).1.flood "flood_u" [] ≠ [] ∧
    (runSpamChecks spamGroups ⟨[], []⟩
        (List.replicate 19 (shortMsg "u", "g1", 0)
          ++ [(shortMsg "u", "g2", 0)])).2
      = List.replicate 19 { isSpam := false }
        ++ [{ isSpam := true, reason := some "flood" }] ∧
    (checkForSpam spamGroups ⟨[], []⟩ (shortMsg "u") "g2" 0).2
      = { isSpam := false } := by
  decide

/-- **C5 (amended).** Tracker state is keyed per userId only (cache keys
`flood_<userId>` / `repeated_<userId>` carry no group component), so
classification depends on the chat group only through its configuration:
whenever two groups resolve to the same configuration, processing a message
for one is indistinguishable from processing it for the other, and a user's
flood/repetition state is shared across all their groups. -/
theorem tracker_key_amended :
    ∀ (groups : Groups) (caches : Caches) (message : Message)
      (g1 g2 : String) (now : Int),
      getGroup groups g1 = getGroup groups g2 →
      checkForSpam groups caches message g1 now
        = checkForSpam groups caches message g2 now := by
  intro groups caches message g1 g2 now h
  simp only [checkForSpam, h]

/-- Closed witness for `tracker_key_amended` at the two demo groups. -/
theorem tracker_key_amended_witness :
    checkForSpam spamGroups ⟨[], []⟩ (shortMsg "u") "g1" 0
      = checkForSpam spamGroups ⟨[], []⟩ (shortMsg "u") "g2" 0 :=
  tracker_key_amended spamGroups ⟨[], []⟩ (shortMsg "u") "g1" "g2" 0 (by decide)

/-- **C6 counterexample.** A forwarded (non-media) text message is NOT
excluded from the repetition check: a single forwarded message mutates the
repetition window, and five identical forwarded messages get classified as
`repeated` spam on the fifth. -/
theorem forwarded_repetition_counterexample :
    (checkForSpam spamGroups ⟨[], []⟩ (fwdMsg "u") "g1" 0).1.repeated
      = [("repeated_u", ["aaaaaaaaaa"])] ∧
    (runSpamChecks spamGroups ⟨[], []⟩
        (List.replicate 5 (fwdMsg "u", "g1", 0))).2
      = List.replicate 4 { isSpam := false }
        ++ [{ isSpam := true, reason := some "repeated" }] := by
  decide

/-- **C6 (amended).** Media messages are excluded from both the flood check
and the repetition check (neither tracker cache is mutated, and the message
is never classified as flood or repeated). Forwarded messages are excluded
from the flood check only: the flood window is untouched and a flood
classification is impossible, but a forwarded non-media text message still
undergoes the repetition check. -/
theorem media_forwarded_amended :
    ∀ (groups : Groups) (caches : Caches) (message : Message) (g : String)
      (now : Int),
      (isMediaMsg message = true →
        (checkForSpam groups caches message g now).1 = caches ∧
        (checkForSpam groups caches message g now).2.reason ≠ some "flood" ∧
        (checkForSpam groups caches message g now).2.reason ≠ some "repeated") ∧
      (isForwardedMsg message = true →
        (checkForSpam groups caches message g now).1.flood = caches.flood ∧
        (checkForSpam groups caches message g now).2.reason ≠ some "flood") := by
  intro groups caches message g now
  constructor
  · intro hm
    cases hg : getGroup groups g with
    | none => refine ⟨?_, ?_, ?_⟩ <;> simp [checkForSpam, hg]
    | some gr =>
      refine ⟨?_, ?_, ?_⟩ <;> simp [checkForSpam, hg, hm] <;>
        (try split_ifs) <;> simp_all
  · intro hf
    cases hg : getGroup groups g with
    | none => refine ⟨?_, ?_⟩ <;> simp [checkForSpam, hg]
    | some gr =>
      refine ⟨?_, ?_⟩ <;> simp [checkForSpam, hg, hf] <;>
        (try split_ifs) <;> simp_all

/-- Closed witness for `media_forwarded_amended`: a media message and a
forwarded message at concrete state. -/
theorem media_forwarded_amended_witness :
    ((checkForSpam spamGroups ⟨[], []⟩ (mediaMsg "u") "g1" 0).1 = ⟨[], []⟩ ∧
     (checkForSpam spamGroups ⟨[], []⟩ (mediaMsg "u") "g1" 0).2.reason ≠ some "flood" ∧
     (checkForSpam spamGroups ⟨[], []⟩ (mediaMsg "u") "g1" 0).2.reason ≠ some "repeated") ∧
    ((checkForSpam spamGroups ⟨[], []⟩ (fwdMsg "u") "g1" 0).1.flood = [] ∧
     (checkForSpam spamGroups ⟨[], []⟩ (fwdMsg "u") "g1" 0).2.reason ≠ some "flood") :=
  ⟨(media_forwarded_amended spamGroups ⟨[], []⟩ (mediaMsg "u") "g1" 0).1 (by decide),
   (media_forwarded_amended spamGroups ⟨[], []⟩ (fwdMsg "u") "g1" 0).2 (by decide)⟩

/-! ## Group warning statistics (C9) -/

/-- **C9 (code bug).** `getGroupWarningStats` never returns an aggregate:
because the source calls the two-argument storage `getWarnings` with only
`groupId`, it receives a single `{count, history}` record and iterates over
that record's two fields as though they were per-user entries; the very
first iteration reads `.history` off the numeric `count` field (undefined)
and calling `.map` on it throws a TypeError — for every groups store, every
warnings store and every groupId. -/
theorem getGroupWarningStats_throws :
    ∀ (groups : Groups) (store : WarningsStore) (groupId : String),
      getGroupWarningStats groups store groupId
        = Except.error "TypeError: cannot read map of undefined" := by
  intro groups store groupId
  rfl

end CommunityBot
